import Mathlib

/-!
Shallow embedding of the Battmon battery-monitor core
(`src/Battmon/battmon.py`, class `MainRun`): the state classification of
`run_main_loop` (lines 420-638), the stabilization wait
`__check_battery_update_times` (lines 407-417), the per-state hold loops,
the minimal-battery escalation (lines 484-545) and the no-battery
reminder loop (lines 600-638).

Telemetry is modelled as a stream `Nat → Sample`: the sample at tick `t`
is what every `battery_values` query issued at elapsed time `t` returns.
Time advances only across `time.sleep` calls, so consecutive queries with
no sleep in between read the same sample.  Side effects (notifications,
sound, screen lock, power action, sleeps) are recorded as an event trace;
loops that the Python runs unboundedly take an explicit fuel argument and
return the trace of the first `fuel` iterations together with the tick at
which they stopped.
-/

/-- Kinds of notification the monitor can emit (`battery_notifications`
calls and the two inline `notify-send` invocations). -/
inductive NotifyKind where
  | discharging
  | low
  | critical
  | minimal
  | lastChance
  | full
  | charging
  | batteryRemoved
  | batteryPlugged
  | noBattery
  deriving Repr, DecidableEq

/-- Observable actions of the monitor loop.  `check b` records a
re-sampled escalation live-check (lines 484-539) whose condition
evaluated to `b`; `sleep n` is `time.sleep(n)`; `notify k ms` is a
notification of kind `k` with display timeout `ms` milliseconds. -/
inductive Event where
  | notify (k : NotifyKind) (timeoutMs : Nat)
  | sleep (secs : Nat)
  | playSound
  | lockScreen
  | powerAction
  | check (live : Bool)
  deriving Repr, DecidableEq

/-- One point-in-time battery/AC reading, as produced by the
`battery_values.BatteryValues` queries.  `timeKnown = false` models
`battery_time() == 'Unknown'`. -/
structure Sample where
  batteryPresent : Bool
  acPresent : Bool
  discharging : Bool
  fullyCharged : Bool
  capacity : Nat
  timeKnown : Bool
  deriving Repr, DecidableEq

/-- The three battery thresholds (`battery_low_value`,
`battery_critical_value`, `battery_minimal_value`). -/
structure Thresholds where
  low : Nat
  critical : Nat
  minimal : Nat
  deriving Repr, DecidableEq

/-- The configuration consumed by `run_main_loop`: `timeout` is the
notification timeout in seconds (`__timeout` is `timeout * 1000` ms and
the cooldown sleeps are `__timeout / 1000` seconds); `batteryUpdateTimeout`
is `battery_update_timeout`; `noBatteryRemainder` is
`set_no_battery_remainder` in minutes; `test` is the dry-run flag;
`playSound` is `play_sound`. -/
structure Config where
  timeout : Nat
  batteryUpdateTimeout : Nat
  noBatteryRemainder : Nat
  test : Bool
  playSound : Bool
  deriving Repr, DecidableEq

/-- The eight classification outcomes of one tick of `run_main_loop`. -/
inductive PowerState where
  | noBattery
  | discharging
  | low
  | critical
  | minimal
  | full
  | charging
  | acIdle
  deriving Repr, DecidableEq

/-- Line 601: `not is_battery_present() and is_ac_present()`. -/
def noBatteryCond (s : Sample) : Bool :=
  !s.batteryPresent && s.acPresent

/-- Lines 427-428 (also the hold guard at 437-438):
`battery_current_capacity() > battery_low_value and not is_ac_present()`. -/
def dischargingCond (th : Thresholds) (s : Sample) : Bool :=
  decide (th.low < s.capacity) && !s.acPresent

/-- Lines 442-443 (also 452-453): `battery_low_value >= capacity >
battery_critical_value and not is_ac_present()`. -/
def lowCond (th : Thresholds) (s : Sample) : Bool :=
  (decide (s.capacity ≤ th.low) && decide (th.critical < s.capacity)) && !s.acPresent

/-- Lines 457-458 (also 467-468): `battery_critical_value >= capacity >
battery_minimal_value and not is_ac_present()`. -/
def criticalCond (th : Thresholds) (s : Sample) : Bool :=
  (decide (s.capacity ≤ th.critical) && decide (th.minimal < s.capacity)) && !s.acPresent

/-- Lines 472-473 (re-checked at every escalation checkpoint):
`battery_current_capacity() <= battery_minimal_value and not is_ac_present()`. -/
def minimalCond (th : Thresholds) (s : Sample) : Bool :=
  decide (s.capacity ≤ th.minimal) && !s.acPresent

/-- Lines 550-552: `is_ac_present() and is_battery_fully_charged() and
not is_battery_discharging()`. -/
def fullCond (s : Sample) : Bool :=
  s.acPresent && s.fullyCharged && !s.discharging

/-- Lines 575-577: `is_ac_present() and not is_battery_fully_charged()
and not is_battery_discharging()`. -/
def chargingCond (s : Sample) : Bool :=
  s.acPresent && !s.fullyCharged && !s.discharging

/-- Whether the sample matches any of the seven action states, each taken
with the enclosing guards it sits under in `run_main_loop` (`while
is_battery_present()` at 423, `not ac and discharging` at 425, `ac and
not discharging` at 548). -/
def matchedAny (th : Thresholds) (s : Sample) : Bool :=
  noBatteryCond s ||
  (s.batteryPresent && (!s.acPresent && s.discharging) && dischargingCond th s) ||
  (s.batteryPresent && (!s.acPresent && s.discharging) && lowCond th s) ||
  (s.batteryPresent && (!s.acPresent && s.discharging) && criticalCond th s) ||
  (s.batteryPresent && (!s.acPresent && s.discharging) && minimalCond th s) ||
  (s.batteryPresent && (s.acPresent && !s.discharging) && fullCond s) ||
  (s.batteryPresent && (s.acPresent && !s.discharging) && chargingCond s)

/-- The full entry condition of each state: the branch guard together
with the guards enclosing it in `run_main_loop`; `acIdle` is "none of
the seven" (no branch fires). -/
def stateCond (th : Thresholds) (s : Sample) : PowerState → Bool
  | PowerState.noBattery => noBatteryCond s
  | PowerState.discharging =>
      s.batteryPresent && (!s.acPresent && s.discharging) && dischargingCond th s
  | PowerState.low =>
      s.batteryPresent && (!s.acPresent && s.discharging) && lowCond th s
  | PowerState.critical =>
      s.batteryPresent && (!s.acPresent && s.discharging) && criticalCond th s
  | PowerState.minimal =>
      s.batteryPresent && (!s.acPresent && s.discharging) && minimalCond th s
  | PowerState.full =>
      s.batteryPresent && (s.acPresent && !s.discharging) && fullCond s
  | PowerState.charging =>
      s.batteryPresent && (s.acPresent && !s.discharging) && chargingCond s
  | PowerState.acIdle => !matchedAny th s

/-- Which branch of `run_main_loop` fires on a tick whose sample is `s`:
the nested conditionals of lines 421-601 read off as a classification
function (the `else` arms marked unreachable in the code map to `acIdle`). -/
def classify (th : Thresholds) (s : Sample) : PowerState :=
  if s.batteryPresent then
    if !s.acPresent && s.discharging then
      if dischargingCond th s then PowerState.discharging
      else if lowCond th s then PowerState.low
      else if criticalCond th s then PowerState.critical
      else if minimalCond th s then PowerState.minimal
      else PowerState.acIdle
    else if s.acPresent && !s.discharging then
      if fullCond s then PowerState.full
      else if chargingCond s then PowerState.charging
      else PowerState.acIdle
    else PowerState.acIdle
  else if noBatteryCond s then PowerState.noBattery
  else PowerState.acIdle

/-- `__check_battery_update_times` (lines 407-417), with explicit fuel
for the `while` loop: while `battery_time()` reads Unknown, sleep
`battery_update_timeout` seconds and re-check; if the re-check still
reads Unknown, give up (`break`).  Returns the trace and the exit tick. -/
def checkUpdateGo (cfg : Config) (sig : Nat → Sample) : Nat → Nat → List Event × Nat
  | 0, t => ([], t)
  | fuel+1, t =>
    if (sig t).timeKnown then ([], t)
    else
      let t1 := t + cfg.batteryUpdateTimeout
      if (sig t1).timeKnown then
        let r := checkUpdateGo cfg sig fuel t1
        (Event.sleep cfg.batteryUpdateTimeout :: r.1, r.2)
      else ([Event.sleep cfg.batteryUpdateTimeout], t1)

/-- `__check_battery_update_times` as called by the handlers.  One unit
of fuel suffices: after the sleep, the inner re-check and the loop guard
read the same tick, so the loop body never runs twice
(`checkUpdateGo_stable` below proves fuel-independence). -/
def checkBatteryUpdateTimes (cfg : Config) (sig : Nat → Sample) (t : Nat) :
    List Event × Nat :=
  checkUpdateGo cfg sig 1 t

/-- The plain hold loops (lines 437-439, 452-454, 467-469): re-sample
every second and stay while the entry condition holds. -/
def holdLoop (cond : Sample → Bool) (sig : Nat → Sample) : Nat → Nat → List Event × Nat
  | t, 0 => ([], t)
  | t, fuel+1 =>
    if cond (sig t) then
      let r := holdLoop cond sig (t+1) fuel
      (Event.sleep 1 :: r.1, r.2)
    else ([], t)

/-- The Full/Charging hold loops (lines 561-572 and 587-598): stay while
the condition holds, but if the battery disappears fire a
"battery removed" notification, sleep one notification timeout, and break. -/
def acHold (cond : Sample → Bool) (cfg : Config) (sig : Nat → Sample) :
    Nat → Nat → List Event × Nat
  | t, 0 => ([], t)
  | t, fuel+1 =>
    if cond (sig t) then
      if !(sig t).batteryPresent then
        ([Event.notify NotifyKind.batteryRemoved (cfg.timeout * 1000),
          Event.sleep cfg.timeout], t + cfg.timeout)
      else
        let r := acHold cond cfg sig (t+1) fuel
        (Event.sleep 1 :: r.1, r.2)
    else ([], t)

/-- Discharging branch (lines 427-439): stabilization wait, one
notification, then the hold loop. -/
def dischargingHandler (th : Thresholds) (cfg : Config) (sig : Nat → Sample)
    (t fuel : Nat) : List Event × Nat :=
  let r := checkBatteryUpdateTimes cfg sig t
  let h := holdLoop (dischargingCond th) sig r.2 fuel
  (r.1 ++ Event.notify NotifyKind.discharging (cfg.timeout * 1000) :: h.1, h.2)

/-- Low branch (lines 442-454). -/
def lowHandler (th : Thresholds) (cfg : Config) (sig : Nat → Sample)
    (t fuel : Nat) : List Event × Nat :=
  let r := checkBatteryUpdateTimes cfg sig t
  let h := holdLoop (lowCond th) sig r.2 fuel
  (r.1 ++ Event.notify NotifyKind.low (cfg.timeout * 1000) :: h.1, h.2)

/-- Critical branch (lines 457-469). -/
def criticalHandler (th : Thresholds) (cfg : Config) (sig : Nat → Sample)
    (t fuel : Nat) : List Event × Nat :=
  let r := checkBatteryUpdateTimes cfg sig t
  let h := holdLoop (criticalCond th) sig r.2 fuel
  (r.1 ++ Event.notify NotifyKind.critical (cfg.timeout * 1000) :: h.1, h.2)

/-- Escalation phase C (lines 521-533): the "LAST CHECK before
hibernating"; if the minimal condition still holds, 4 rounds of
{sleep 5; play}, sleep 1, then lock the screen and run the configured
power action; otherwise break with no action. -/
def phaseC (th : Thresholds) (sig : Nat → Sample) (t : Nat) : List Event × Nat :=
  if minimalCond th (sig t) then
    ([Event.check true,
      Event.sleep 5, Event.playSound, Event.sleep 5, Event.playSound,
      Event.sleep 5, Event.playSound, Event.sleep 5, Event.playSound,
      Event.sleep 1, Event.lockScreen, Event.powerAction], t + 21)
  else ([Event.check false], t)

/-- Escalation phase B (lines 501-520): "one more check if ac was
plugged"; if the minimal condition still holds, sleep 2, play the alert
sound, emit the inline last-chance `notify-send` with `-t 10*1000`, then
sleep 10; control then falls through to phase C. -/
def phaseB (th : Thresholds) (sig : Nat → Sample) (t : Nat) : List Event × Nat :=
  if minimalCond th (sig t) then
    let r := phaseC th sig (t + 12)
    (Event.check true :: Event.sleep 2 :: Event.playSound ::
      Event.notify NotifyKind.lastChance 10000 :: Event.sleep 10 :: r.1, r.2)
  else
    let r := phaseC th sig t
    (Event.check false :: r.1, r.2)

/-- Escalation phase A (lines 490-500): up to `n` rounds (5 in the code)
of {live-check; sleep 2; play}; a failed check breaks out of the `for`
and control falls through to phase B. -/
def phaseA (th : Thresholds) (sig : Nat → Sample) : Nat → Nat → List Event × Nat
  | 0, t => phaseB th sig t
  | n+1, t =>
    if minimalCond th (sig t) then
      let r := phaseA th sig n (t + 2)
      (Event.check true :: Event.sleep 2 :: Event.playSound :: r.1, r.2)
    else
      let r := phaseB th sig t
      (Event.check false :: r.1, r.2)

/-- Dry-run substitute (lines 535-543): `n` rounds of {play sound if
enabled; live-check; sleep 2 while the condition holds}, then the fixed
`time.sleep(10)` after the "TEST: Hibernating..." print. -/
def dryLoop (th : Thresholds) (snd : Bool) (sig : Nat → Sample) :
    Nat → Nat → List Event × Nat
  | 0, t => ([Event.sleep 10], t + 10)
  | n+1, t =>
    let pre := if snd then [Event.playSound] else []
    if minimalCond th (sig t) then
      let r := dryLoop th snd sig n (t + 2)
      (pre ++ Event.check true :: Event.sleep 2 :: r.1, r.2)
    else
      let r := dryLoop th snd sig n t
      (pre ++ Event.check false :: r.1, r.2)

/-- The whole escalation sub-protocol (lines 484-545): the "check once
more" at 484, the dry-run dispatch at 487/535, the re-check at 488, then
phases A, B, C. -/
def escalation (th : Thresholds) (cfg : Config) (sig : Nat → Sample) (t : Nat) :
    List Event × Nat :=
  if minimalCond th (sig t) then
    if !cfg.test then
      if minimalCond th (sig t) then
        let r := phaseA th sig 5 t
        (Event.check true :: Event.check true :: r.1, r.2)
      else ([Event.check true, Event.check false], t)
    else
      let r := dryLoop th cfg.playSound sig 5 t
      (Event.check true :: r.1, r.2)
  else ([Event.check false], t)

/-- Minimal branch (lines 472-545): stabilization wait, the minimal
notification (sent with display timeout `10 * 1000` ms), then the
escalation. -/
def minimalHandler (th : Thresholds) (cfg : Config) (sig : Nat → Sample)
    (t : Nat) : List Event × Nat :=
  let r := checkBatteryUpdateTimes cfg sig t
  let e := escalation th cfg sig r.2
  (r.1 ++ Event.notify NotifyKind.minimal 10000 :: e.1, e.2)

/-- Full branch (lines 550-572): an unconditional
`time.sleep(battery_update_timeout)` ("simulate
__check_battery_update_times() behavior"), the full-battery
notification, then the hold loop with the battery-removed sub-check. -/
def fullHandler (cfg : Config) (sig : Nat → Sample) (t fuel : Nat) :
    List Event × Nat :=
  let h := acHold fullCond cfg sig (t + cfg.batteryUpdateTimeout) fuel
  (Event.sleep cfg.batteryUpdateTimeout ::
    Event.notify NotifyKind.full (cfg.timeout * 1000) :: h.1, h.2)

/-- Charging branch (lines 575-598): stabilization wait, the charging
notification, then the hold loop with the battery-removed sub-check. -/
def chargingHandler (cfg : Config) (sig : Nat → Sample) (t fuel : Nat) :
    List Event × Nat :=
  let r := checkBatteryUpdateTimes cfg sig t
  let h := acHold chargingCond cfg sig r.2 fuel
  (r.1 ++ Event.notify NotifyKind.charging (cfg.timeout * 1000) :: h.1, h.2)

/-- The no-battery wait loop (lines 610-638), producing timed events
`(tick, event)`.  Each iteration: if the battery is back, exit the
`while`; otherwise sleep 1 s, bump the counter, fire "battery plugged"
and a cooldown sleep if the battery reappeared, else fire the reminder
when the counter reaches `remainder * 60` and reset it to 1. -/
def noBatteryLoop (cfg : Config) (sig : Nat → Sample) :
    Nat → Nat → Nat → List (Nat × Event)
  | _, _, 0 => []
  | t, c, fuel+1 =>
    if (sig t).batteryPresent then []
    else if 0 < cfg.noBatteryRemainder then
      (t, Event.sleep 1) ::
        (if (sig (t+1)).batteryPresent then
          [(t+1, Event.notify NotifyKind.batteryPlugged (cfg.timeout * 1000)),
           (t+1, Event.sleep cfg.timeout)]
        else if c + 1 == cfg.noBatteryRemainder * 60 then
          (t+1, Event.notify NotifyKind.noBattery (cfg.timeout * 1000)) ::
            noBatteryLoop cfg sig (t+1) 1 fuel
        else noBatteryLoop cfg sig (t+1) (c+1) fuel)
    else
      (t, Event.sleep 1) ::
        (if (sig (t+1)).batteryPresent then
          [(t+1, Event.notify NotifyKind.batteryPlugged (cfg.timeout * 1000)),
           (t+1, Event.sleep cfg.timeout)]
        else noBatteryLoop cfg sig (t+1) c fuel)

/-- NoBattery branch (lines 601-638): entry notification, then the wait
loop with `no_battery_counter` starting at 1. -/
def noBatteryHandler (cfg : Config) (sig : Nat → Sample) (t fuel : Nat) :
    List (Nat × Event) :=
  (t, Event.notify NotifyKind.noBattery (cfg.timeout * 1000)) ::
    noBatteryLoop cfg sig t 1 fuel

/-- One pass over the body of `while is_battery_present()` (lines
425-598), entered at tick `t`: the discharging `elif` chain first, then
the `ac and not discharging` block, whose Full and Charging conditions
are re-read at the tick where the previous handler left off. -/
def batteryTickBody (th : Thresholds) (cfg : Config) (sig : Nat → Sample)
    (t fuel : Nat) : List Event × Nat :=
  let s := sig t
  let r1 :=
    if !s.acPresent && s.discharging then
      if dischargingCond th s then dischargingHandler th cfg sig t fuel
      else if lowCond th s then lowHandler th cfg sig t fuel
      else if criticalCond th s then criticalHandler th cfg sig t fuel
      else if minimalCond th s then minimalHandler th cfg sig t
      else ([], t)
    else ([], t)
  let s2 := sig r1.2
  if s2.acPresent && !s2.discharging then
    let r2 := if fullCond s2 then fullHandler cfg sig r1.2 fuel
              else (([] : List Event), r1.2)
    let s3 := sig r2.2
    let r3 := if chargingCond s3 then chargingHandler cfg sig r2.2 fuel
              else (([] : List Event), r2.2)
    (r1.1 ++ r2.1 ++ r3.1, r3.2)
  else r1

/-- One dispatch of the outer `while True` at tick `t` (lines 421-638):
the battery block when a battery is present, the no-battery block when
the battery is absent with AC present, and nothing otherwise. -/
def mainStep (th : Thresholds) (cfg : Config) (sig : Nat → Sample)
    (t fuel : Nat) : List Event :=
  let s := sig t
  if s.batteryPresent then (batteryTickBody th cfg sig t fuel).1
  else if noBatteryCond s then (noBatteryHandler cfg sig t fuel).map Prod.snd
  else []

/-- Does this event report a notification of kind `k`? -/
def isNotifyOf (k : NotifyKind) : Event → Bool
  | Event.notify k2 _ => k2 == k
  | _ => false

/-- Number of notifications of kind `k` in a trace. -/
def notifyCount (k : NotifyKind) (evs : List Event) : Nat :=
  (evs.filter (isNotifyOf k)).length

/-- Is this event a sleep? -/
def isSleep : Event → Bool
  | Event.sleep _ => true
  | _ => false

/-- Number of sleeps in a trace. -/
def sleepCount (evs : List Event) : Nat :=
  (evs.filter isSleep).length

/-- Is this event a live-check record (as opposed to an action)? -/
def isCheck : Event → Bool
  | Event.check _ => true
  | _ => false

/-- A trace with the live-check records erased: the externally visible
actions only. -/
def actionsOf (evs : List Event) : List Event :=
  evs.filter (fun e => !isCheck e)

/-- The ticks at which "no battery" notifications fire in a timed trace. -/
def noBatTimes (evs : List (Nat × Event)) : List Nat :=
  evs.filterMap (fun p => if isNotifyOf NotifyKind.noBattery p.2 then some p.1 else none)

/-- Number of "battery plugged" notifications in a timed trace. -/
def pluggedCount (evs : List (Nat × Event)) : Nat :=
  (evs.filter (fun p => isNotifyOf NotifyKind.batteryPlugged p.2)).length

/-- Reminder fire ticks predicted by the counter logic of lines 611-627:
starting from counter `c`, each second bumps the counter, fires when it
equals `remainder * 60`, then resets it to 1. -/
def fireTimes (remainder : Nat) : Nat → Nat → Nat → List Nat
  | _, _, 0 => []
  | t, c, fuel+1 =>
    if c + 1 == remainder * 60 then (t+1) :: fireTimes remainder (t+1) 1 fuel
    else fireTimes remainder (t+1) (c+1) fuel

/-- The default thresholds of the argument parser (lines 666-668):
low 23, critical 14, minimal 7. -/
def thD : Thresholds := ⟨23, 14, 7⟩

/-- Default configuration (lines 664-670): timeout 6 s, update
interval 6 s, no reminder, not dry-run, sound on. -/
def cfgD : Config := ⟨6, 6, 0, false, true⟩

/-- Default configuration with the dry-run flag set. -/
def cfgDry : Config := ⟨6, 6, 0, true, true⟩

/-- Default configuration with a 1-minute no-battery reminder. -/
def cfgR1 : Config := ⟨6, 6, 1, false, true⟩

/-- Battery at 5 %, discharging on battery power, time known. -/
def sampleMin : Sample := ⟨true, false, true, false, 5, true⟩

/-- The same battery the instant AC power is plugged in. -/
def sampleACMin : Sample := ⟨true, true, false, false, 5, true⟩

/-- No battery, AC present. -/
def sampleAbsent : Sample := ⟨false, true, false, false, 0, true⟩

/-- Battery present again on AC. -/
def sampleBack : Sample := ⟨true, true, false, false, 50, true⟩

/-- Fully charged battery on AC, time known. -/
def sampleFullKnown : Sample := ⟨true, true, false, true, 100, true⟩

/-- Battery present with AC attached while the discharging flag is
also set: matches none of the seven states. -/
def sampleIdle : Sample := ⟨true, true, true, false, 50, true⟩

/-- Stream that stays in the minimal condition forever. -/
def sigMin : Nat → Sample := fun _ => sampleMin

/-- Stream where AC power is plugged in at tick 2 (during escalation
phase A) and stays plugged. -/
def sigAbort : Nat → Sample := fun u => if u < 2 then sampleMin else sampleACMin

/-- Stream with the battery absent forever. -/
def sigAbsent : Nat → Sample := fun _ => sampleAbsent

/-- Stream where the battery is absent and reappears at tick 2. -/
def sigPlug : Nat → Sample := fun u => if u < 2 then sampleAbsent else sampleBack

/-- Stream that sits at full charge with the remaining time known. -/
def sigFull : Nat → Sample := fun _ => sampleFullKnown

/-- Stream stuck in the ambiguous AC-plus-discharging sample. -/
def sigIdle : Nat → Sample := fun _ => sampleIdle

/-- The Phase B plus Phase C action sequence asserted by the
specification: play sound, last-chance notification with a 10-second
display timeout, sleep 10 s, then 4 rounds of sleep 5 s and sound,
sleep 1 s, screen lock, power action.  (Transcribed from the spec for
comparison; the code's phase B starts with an extra 2-second sleep.) -/
def specPhaseBCActions : List Event :=
  [Event.playSound, Event.notify NotifyKind.lastChance 10000, Event.sleep 10,
   Event.sleep 5, Event.playSound, Event.sleep 5, Event.playSound,
   Event.sleep 5, Event.playSound, Event.sleep 5, Event.playSound,
   Event.sleep 1, Event.lockScreen, Event.powerAction]



/-- Stream that is discharging at 50 % with `battery_time()` reading
Unknown forever. -/
def sigUnknown : Nat → Sample := fun _ => ⟨true, false, true, false, 50, false⟩

set_option maxHeartbeats 2000000 in
/-- Claim C1: for every valid threshold triple (minimal < critical <
low ≤ 100) and every telemetry sample with integer capacity in [0,100],
exactly one of the eight states NoBattery, Discharging, Low, Critical,
Minimal, Full, Charging, ACIdle matches: the branch `run_main_loop`
takes satisfies its own entry condition and no other state's condition
holds, so the priority conditions are total and pairwise non-overlapping. -/
theorem classify_exactly_one (th : Thresholds) (s : Sample)
    (hmc : th.minimal < th.critical) (hcl : th.critical < th.low) (hl : th.low ≤ 100)
    (hcap : s.capacity ≤ 100) :
    stateCond th s (classify th s) = true ∧
      ∀ st, stateCond th s st = true → st = classify th s := by
  obtain ⟨bp, ac, dis, fc, cap, tk⟩ := s
  have H : ∀ st : PowerState, stateCond th ⟨bp, ac, dis, fc, cap, tk⟩ st = true ↔
      st = classify th ⟨bp, ac, dis, fc, cap, tk⟩ := by
    intro st
    cases st <;> cases bp <;> cases ac <;> cases dis <;> cases fc <;>
      simp only [stateCond, classify, matchedAny, noBatteryCond, dischargingCond, lowCond,
        criticalCond, minimalCond, fullCond, chargingCond, Bool.not_true, Bool.not_false,
        Bool.false_and, Bool.true_and, Bool.and_false, Bool.and_true, Bool.or_false,
        Bool.false_or, Bool.and_self, if_true, if_false] <;>
      split_ifs <;>
      simp_all <;> omega
  exact ⟨(H _).mpr rfl, fun st h => (H st).mp h⟩

/-- Witness for C1 at the default thresholds and a concrete minimal
sample: the branch taken matches its condition and Minimal is the unique
matching state. -/
theorem classify_exactly_one_witness :
    stateCond thD sampleMin (classify thD sampleMin) = true ∧
      PowerState.minimal = classify thD sampleMin :=
  ⟨(classify_exactly_one thD sampleMin (by decide) (by decide) (by decide) (by decide)).1,
   (classify_exactly_one thD sampleMin (by decide) (by decide) (by decide) (by decide)).2
     PowerState.minimal (by decide)⟩

theorem notifyCount_append (k : NotifyKind) (a b : List Event) :
    notifyCount k (a ++ b) = notifyCount k a + notifyCount k b := by
  simp [notifyCount, List.filter_append]

theorem notifyCount_cons (k : NotifyKind) (e : Event) (evs : List Event) :
    notifyCount k (e :: evs) = (if isNotifyOf k e then 1 else 0) + notifyCount k evs := by
  simp only [notifyCount, List.filter_cons]
  split_ifs <;> simp_all <;> omega

theorem checkUpdateGo_known (cfg : Config) (sig : Nat → Sample) (t : Nat)
    (h : (sig t).timeKnown = true) :
    ∀ fuel, checkUpdateGo cfg sig fuel t = ([], t) := by
  intro fuel
  cases fuel with
  | zero => rfl
  | succ n => simp [checkUpdateGo, h]

theorem checkBatteryUpdateTimes_eq (cfg : Config) (sig : Nat → Sample) (t : Nat) :
    checkBatteryUpdateTimes cfg sig t =
      if (sig t).timeKnown then ([], t)
      else ([Event.sleep cfg.batteryUpdateTimeout], t + cfg.batteryUpdateTimeout) := by
  simp only [checkBatteryUpdateTimes, checkUpdateGo]
  split_ifs <;> simp_all [checkUpdateGo]

theorem checkUpdateGo_stable (cfg : Config) (sig : Nat → Sample) (fuel t : Nat)
    (h : 1 ≤ fuel) :
    checkUpdateGo cfg sig fuel t = checkUpdateGo cfg sig 1 t := by
  cases fuel with
  | zero => omega
  | succ n =>
    simp only [checkUpdateGo]
    split_ifs with h1 h2
    · rfl
    · rw [checkUpdateGo_known cfg sig _ h2]
    · rfl

theorem checkUpdate_no_notify (k : NotifyKind) (cfg : Config) (sig : Nat → Sample)
    (t : Nat) : notifyCount k (checkBatteryUpdateTimes cfg sig t).1 = 0 := by
  rw [checkBatteryUpdateTimes_eq]
  split_ifs <;> simp [notifyCount, isNotifyOf]

theorem holdLoop_no_notify (k : NotifyKind) (cond : Sample → Bool) (sig : Nat → Sample) :
    ∀ fuel t, notifyCount k (holdLoop cond sig t fuel).1 = 0 := by
  intro fuel
  induction fuel with
  | zero => intro t; rfl
  | succ n ih =>
    intro t
    simp only [holdLoop]
    split_ifs with h
    · simpa [notifyCount_cons, isNotifyOf] using ih (t + 1)
    · rfl

theorem acHold_no_notify (k : NotifyKind) (cond : Sample → Bool) (cfg : Config)
    (sig : Nat → Sample) (hk : (NotifyKind.batteryRemoved == k) = false) :
    ∀ fuel t, notifyCount k (acHold cond cfg sig t fuel).1 = 0 := by
  intro fuel
  induction fuel with
  | zero => intro t; rfl
  | succ n ih =>
    intro t
    simp only [acHold]
    split_ifs with h1 h2
    · simp [notifyCount_cons, isNotifyOf, hk, notifyCount]
    · simpa [notifyCount_cons, isNotifyOf] using ih (t + 1)
    · rfl

/-- Claim C2: for each of the five states Discharging, Low, Critical,
Charging and Full, the branch taken on entering the state fires exactly
one notification of that state's kind, whatever the telemetry stream
and however long the hold loop runs afterwards: the hold loop re-samples
every second and never re-fires while the entry condition persists. -/
theorem entry_notification_fires_once (th : Thresholds) (cfg : Config)
    (sig : Nat → Sample) (t fuel : Nat) :
    notifyCount NotifyKind.discharging (dischargingHandler th cfg sig t fuel).1 = 1 ∧
    notifyCount NotifyKind.low (lowHandler th cfg sig t fuel).1 = 1 ∧
    notifyCount NotifyKind.critical (criticalHandler th cfg sig t fuel).1 = 1 ∧
    notifyCount NotifyKind.full (fullHandler cfg sig t fuel).1 = 1 ∧
    notifyCount NotifyKind.charging (chargingHandler cfg sig t fuel).1 = 1 := by
  have hbf : (NotifyKind.batteryRemoved == NotifyKind.full) = false := by decide
  have hbc : (NotifyKind.batteryRemoved == NotifyKind.charging) = false := by decide
  refine ⟨?_, ?_, ?_, ?_, ?_⟩
  · simp [dischargingHandler, notifyCount_append, notifyCount_cons, isNotifyOf,
      checkUpdate_no_notify, holdLoop_no_notify]
  · simp [lowHandler, notifyCount_append, notifyCount_cons, isNotifyOf,
      checkUpdate_no_notify, holdLoop_no_notify]
  · simp [criticalHandler, notifyCount_append, notifyCount_cons, isNotifyOf,
      checkUpdate_no_notify, holdLoop_no_notify]
  · simp [fullHandler, notifyCount_cons, isNotifyOf, acHold_no_notify _ _ _ _ hbf]
  · simp [chargingHandler, notifyCount_append, notifyCount_cons, isNotifyOf,
      checkUpdate_no_notify, acHold_no_notify _ _ _ _ hbc]

/-- Claim C10: `__check_battery_update_times` terminates after at most
one sleep of `battery_update_timeout` seconds: its result is already
stable at one unit of loop fuel, every run contains at most one sleep
event, and when `battery_time()` reads Unknown on every sample the wait
still returns after exactly one sleep instead of blocking. -/
theorem check_update_terminates (cfg : Config) (sig : Nat → Sample) (t fuel : Nat)
    (hfuel : 1 ≤ fuel) :
    sleepCount (checkUpdateGo cfg sig fuel t).1 ≤ 1 ∧
    checkUpdateGo cfg sig fuel t = checkUpdateGo cfg sig 1 t ∧
    ((∀ u, (sig u).timeKnown = false) →
      (checkUpdateGo cfg sig fuel t).1 = [Event.sleep cfg.batteryUpdateTimeout]) := by
  have hone : checkUpdateGo cfg sig 1 t = checkBatteryUpdateTimes cfg sig t := rfl
  refine ⟨?_, checkUpdateGo_stable cfg sig fuel t hfuel, ?_⟩
  · rw [checkUpdateGo_stable cfg sig fuel t hfuel, hone, checkBatteryUpdateTimes_eq]
    split_ifs <;> simp [sleepCount, isSleep]
  · intro h
    rw [checkUpdateGo_stable cfg sig fuel t hfuel, hone, checkBatteryUpdateTimes_eq]
    simp [h t]

/-- Witness for C10 on a stream whose reported time is never known: the
wait performs exactly one sleep and returns. -/
theorem check_update_terminates_witness :
    sleepCount (checkUpdateGo cfgD sigUnknown 3 0).1 ≤ 1 ∧
    (checkUpdateGo cfgD sigUnknown 3 0).1 = [Event.sleep cfgD.batteryUpdateTimeout] :=
  ⟨(check_update_terminates cfgD sigUnknown 0 3 (by decide)).1,
   (check_update_terminates cfgD sigUnknown 0 3 (by decide)).2.2 (fun _ => rfl)⟩

/-- Claim C8 (amended): on entry into Discharging, Low, Critical and
Charging the loop runs the bounded stabilization wait before the entry
notification: no sleep when the remaining time is already known, one
sleep of `battery_update_timeout` seconds and proceed anyway otherwise,
with an Unknown reading never surfaced as an error.  The Full branch
does not run this wait: it sleeps one `battery_update_timeout`
unconditionally, before its notification, without consulting the
remaining time. -/
theorem entry_wait_protocol (th : Thresholds) (cfg : Config) (sig : Nat → Sample)
    (t fuel : Nat) :
    ((sig t).timeKnown = true → checkBatteryUpdateTimes cfg sig t = ([], t)) ∧
    ((sig t).timeKnown = false →
      checkBatteryUpdateTimes cfg sig t =
        ([Event.sleep cfg.batteryUpdateTimeout], t + cfg.batteryUpdateTimeout)) ∧
    (dischargingHandler th cfg sig t fuel).1 =
      (checkBatteryUpdateTimes cfg sig t).1 ++
        Event.notify NotifyKind.discharging (cfg.timeout * 1000) ::
          (holdLoop (dischargingCond th) sig (checkBatteryUpdateTimes cfg sig t).2 fuel).1 ∧
    (lowHandler th cfg sig t fuel).1 =
      (checkBatteryUpdateTimes cfg sig t).1 ++
        Event.notify NotifyKind.low (cfg.timeout * 1000) ::
          (holdLoop (lowCond th) sig (checkBatteryUpdateTimes cfg sig t).2 fuel).1 ∧
    (criticalHandler th cfg sig t fuel).1 =
      (checkBatteryUpdateTimes cfg sig t).1 ++
        Event.notify NotifyKind.critical (cfg.timeout * 1000) ::
          (holdLoop (criticalCond th) sig (checkBatteryUpdateTimes cfg sig t).2 fuel).1 ∧
    (chargingHandler cfg sig t fuel).1 =
      (checkBatteryUpdateTimes cfg sig t).1 ++
        Event.notify NotifyKind.charging (cfg.timeout * 1000) ::
          (acHold chargingCond cfg sig (checkBatteryUpdateTimes cfg sig t).2 fuel).1 ∧
    (fullHandler cfg sig t fuel).1 =
      Event.sleep cfg.batteryUpdateTimeout ::
        Event.notify NotifyKind.full (cfg.timeout * 1000) ::
          (acHold fullCond cfg sig (t + cfg.batteryUpdateTimeout) fuel).1 := by
  refine ⟨?_, ?_, rfl, rfl, rfl, rfl, rfl⟩
  · intro h; rw [checkBatteryUpdateTimes_eq]; simp [h]
  · intro h; rw [checkBatteryUpdateTimes_eq]; simp [h]

/-- Witness for the amended C8: with the remaining time known the wait
is empty, and with it unknown the wait is a single sleep. -/
theorem entry_wait_protocol_witness :
    checkBatteryUpdateTimes cfgD sigFull 0 = ([], 0) ∧
    checkBatteryUpdateTimes cfgD sigUnknown 0 = ([Event.sleep 6], 6) :=
  ⟨(entry_wait_protocol thD cfgD sigFull 0 0).1 rfl,
   (entry_wait_protocol thD cfgD sigUnknown 0 0).2.1 rfl⟩

/-- Counterexample for C8 as stated: at a stream whose remaining time is
known from the start, the stabilization wait is a no-op and the Charging
branch notifies immediately, but the Full branch's first action is still
an unconditional `battery_update_timeout` sleep, so Full does not follow
the wait-for-known protocol the claim says applies uniformly. -/
theorem full_entry_wait_counterexample :
    (sigFull 0).timeKnown = true ∧
    checkBatteryUpdateTimes cfgD sigFull 0 = ([], 0) ∧
    (chargingHandler cfgD sigFull 0 0).1.head? =
      some (Event.notify NotifyKind.charging 6000) ∧
    (fullHandler cfgD sigFull 0 0).1.head? = some (Event.sleep 6) := by
  refine ⟨rfl, rfl, rfl, rfl⟩

theorem phaseC_of_false (th : Thresholds) (sig : Nat → Sample) (t : Nat)
    (h : minimalCond th (sig t) = false) :
    phaseC th sig t = ([Event.check false], t) := by
  simp [phaseC, h]

theorem phaseC_check_false (th : Thresholds) (sig : Nat → Sample) (t : Nat)
    (h : Event.check false ∈ (phaseC th sig t).1) :
    minimalCond th (sig t) = false := by
  by_cases hc : minimalCond th (sig t) = true
  · simp [phaseC, hc] at h
  · simpa using hc

theorem phaseB_abort (th : Thresholds) (sig : Nat → Sample) (t : Nat)
    (h : Event.check false ∈ (phaseB th sig t).1) :
    Event.lockScreen ∉ (phaseB th sig t).1 ∧
    Event.powerAction ∉ (phaseB th sig t).1 := by
  by_cases hc : minimalCond th (sig t) = true
  · have hmem : Event.check false ∈ (phaseC th sig (t + 12)).1 := by
      simp only [phaseB, hc, if_true] at h
      simpa using h
    have hf := phaseC_check_false th sig (t + 12) hmem
    have hC := phaseC_of_false th sig (t + 12) hf
    constructor <;> simp [phaseB, hc, hC]
  · have hcf : minimalCond th (sig t) = false := by simpa using hc
    have hC := phaseC_of_false th sig t hcf
    constructor <;> simp [phaseB, hcf, hC]

theorem phaseA_abort (th : Thresholds) (sig : Nat → Sample) :
    ∀ n t, Event.check false ∈ (phaseA th sig n t).1 →
      Event.lockScreen ∉ (phaseA th sig n t).1 ∧
      Event.powerAction ∉ (phaseA th sig n t).1 := by
  intro n
  induction n with
  | zero => intro t h; exact phaseB_abort th sig t h
  | succ m ih =>
    intro t h
    by_cases hc : minimalCond th (sig t) = true
    · have hmem : Event.check false ∈ (phaseA th sig m (t + 2)).1 := by
        simp only [phaseA, hc, if_true] at h
        simpa using h
      have h2 := ih (t + 2) hmem
      constructor <;> simp [phaseA, hc, h2.1, h2.2]
    · have hcf : minimalCond th (sig t) = false := by simpa using hc
      have hC := phaseC_of_false th sig t hcf
      constructor <;> simp [phaseA, hcf, phaseB, hC]

theorem dryLoop_no_lock (th : Thresholds) (snd : Bool) (sig : Nat → Sample) :
    ∀ n t, Event.lockScreen ∉ (dryLoop th snd sig n t).1 ∧
      Event.powerAction ∉ (dryLoop th snd sig n t).1 := by
  intro n
  induction n with
  | zero => intro t; constructor <;> simp [dryLoop]
  | succ m ih =>
    intro t
    constructor <;> by_cases hc : minimalCond th (sig t) = true <;>
      by_cases hs : snd = true <;>
      simp_all [dryLoop, (ih (t + 2)).1, (ih (t + 2)).2, (ih t).1, (ih t).2]

theorem escalation_abort (th : Thresholds) (cfg : Config) (sig : Nat → Sample) (t : Nat)
    (h : Event.check false ∈ (escalation th cfg sig t).1) :
    Event.lockScreen ∉ (escalation th cfg sig t).1 ∧
    Event.powerAction ∉ (escalation th cfg sig t).1 := by
  by_cases hc : minimalCond th (sig t) = true
  · by_cases ht : cfg.test = true
    · have hd := dryLoop_no_lock th cfg.playSound sig 5 t
      constructor <;> simp [escalation, hc, ht, hd.1, hd.2]
    · have htf : cfg.test = false := by simpa using ht
      have hmem : Event.check false ∈ (phaseA th sig 5 t).1 := by
        simp only [escalation, hc, htf, if_true, Bool.not_false] at h
        simpa using h
      have h2 := phaseA_abort th sig 5 t hmem
      constructor <;> simp [escalation, hc, htf, h2.1, h2.2]
  · have hcf : minimalCond th (sig t) = false := by simpa using hc
    constructor <;> simp [escalation, hcf]

/-- Claim C3: for every entry into Minimal, if any escalation live-check
(the re-sample at the entry double-check or at a Phase A, B or C
checkpoint) sees AC present or the capacity back above the minimal
threshold, then neither the screen-lock command nor the configured power
action is invoked for that entry. -/
theorem escalation_abort_no_lock (th : Thresholds) (cfg : Config) (sig : Nat → Sample)
    (t : Nat) (h : Event.check false ∈ (minimalHandler th cfg sig t).1) :
    Event.lockScreen ∉ (minimalHandler th cfg sig t).1 ∧
    Event.powerAction ∉ (minimalHandler th cfg sig t).1 := by
  have hEq := checkBatteryUpdateTimes_eq cfg sig t
  by_cases hk : (sig t).timeKnown = true
  · rw [if_pos hk] at hEq
    have h2 : Event.check false ∈ (escalation th cfg sig t).1 := by
      simpa [minimalHandler, hEq] using h
    have h3 := escalation_abort th cfg sig t h2
    constructor <;> simp [minimalHandler, hEq, h3.1, h3.2]
  · rw [if_neg hk] at hEq
    have h2 : Event.check false ∈
        (escalation th cfg sig (t + cfg.batteryUpdateTimeout)).1 := by
      simpa [minimalHandler, hEq] using h
    have h3 := escalation_abort th cfg sig (t + cfg.batteryUpdateTimeout) h2
    constructor <;> simp [minimalHandler, hEq, h3.1, h3.2]

/-- Witness for C3: AC is plugged in at tick 2, during escalation phase
A; a live-check records false and no lock or power action appears. -/
theorem escalation_abort_no_lock_witness :
    Event.check false ∈ (minimalHandler thD cfgD sigAbort 0).1 ∧
    (Event.lockScreen ∉ (minimalHandler thD cfgD sigAbort 0).1 ∧
     Event.powerAction ∉ (minimalHandler thD cfgD sigAbort 0).1) :=
  ⟨by decide, escalation_abort_no_lock thD cfgD sigAbort 0 (by decide)⟩

/-- Counterexample for C4 as stated: on a stream that stays in the
minimal condition, the actions the code performs from phase B on are a
2-second sleep followed by the sequence the claim asserts, so they are
not equal to the claimed sequence (which starts directly with the alert
sound). -/
theorem phaseB_spec_mismatch :
    actionsOf (phaseB thD sigMin 0).1 = Event.sleep 2 :: specPhaseBCActions ∧
    actionsOf (phaseB thD sigMin 0).1 ≠ specPhaseBCActions := by
  constructor <;> decide

/-- Claim C4 (amended): on a non-dry-run entry whose phase B and phase C
live-checks still find the minimal condition true, phase B sleeps 2 s,
plays the alert sound, emits the last-chance notification with a fixed
10-second display timeout and sleeps 10 s; phase C then runs 4 rounds of
{sleep 5 s; play}, sleeps 1 s, and invokes the screen lock followed by
the configured power action, each exactly once. -/
theorem escalation_phaseBC_trace (th : Thresholds) (sig : Nat → Sample) (t : Nat)
    (h1 : minimalCond th (sig t) = true) (h2 : minimalCond th (sig (t + 12)) = true) :
    (phaseB th sig t).1 =
      [Event.check true, Event.sleep 2, Event.playSound,
       Event.notify NotifyKind.lastChance 10000, Event.sleep 10,
       Event.check true, Event.sleep 5, Event.playSound, Event.sleep 5, Event.playSound,
       Event.sleep 5, Event.playSound, Event.sleep 5, Event.playSound,
       Event.sleep 1, Event.lockScreen, Event.powerAction] ∧
    actionsOf (phaseB th sig t).1 = Event.sleep 2 :: specPhaseBCActions ∧
    (phaseB th sig t).1.count Event.lockScreen = 1 ∧
    (phaseB th sig t).1.count Event.powerAction = 1 := by
  have hB : (phaseB th sig t).1 =
      [Event.check true, Event.sleep 2, Event.playSound,
       Event.notify NotifyKind.lastChance 10000, Event.sleep 10,
       Event.check true, Event.sleep 5, Event.playSound, Event.sleep 5, Event.playSound,
       Event.sleep 5, Event.playSound, Event.sleep 5, Event.playSound,
       Event.sleep 1, Event.lockScreen, Event.powerAction] := by
    simp [phaseB, phaseC, h1, h2]
  refine ⟨hB, ?_, ?_, ?_⟩ <;> rw [hB] <;> decide

/-- Witness for the amended C4 at the default thresholds and a stream
pinned in the minimal condition. -/
theorem escalation_phaseBC_trace_witness :
    actionsOf (phaseB thD sigMin 0).1 = Event.sleep 2 :: specPhaseBCActions ∧
    (phaseB thD sigMin 0).1.count Event.lockScreen = 1 :=
  ⟨(escalation_phaseBC_trace thD sigMin 0 (by decide) (by decide)).2.1,
   (escalation_phaseBC_trace thD sigMin 0 (by decide) (by decide)).2.2.1⟩

/-- Claim C5: in dry-run mode, on an entry into Minimal whose condition
holds at each of the five round checks, the escalation's actions are
exactly 5 sound-play rounds with 2-second sleeps followed by the single
fixed 10-second simulated pause, and the screen lock and power action
are never invoked. -/
theorem dry_run_trace (th : Thresholds) (cfg : Config) (sig : Nat → Sample) (t : Nat)
    (htest : cfg.test = true) (hsnd : cfg.playSound = true)
    (h0 : minimalCond th (sig t) = true) (h2 : minimalCond th (sig (t + 2)) = true)
    (h4 : minimalCond th (sig (t + 4)) = true) (h6 : minimalCond th (sig (t + 6)) = true)
    (h8 : minimalCond th (sig (t + 8)) = true) :
    actionsOf (escalation th cfg sig t).1 =
      [Event.playSound, Event.sleep 2, Event.playSound, Event.sleep 2, Event.playSound,
       Event.sleep 2, Event.playSound, Event.sleep 2, Event.playSound, Event.sleep 2,
       Event.sleep 10] ∧
    Event.lockScreen ∉ (escalation th cfg sig t).1 ∧
    Event.powerAction ∉ (escalation th cfg sig t).1 := by
  have hE : (escalation th cfg sig t).1 =
      Event.check true :: (dryLoop th cfg.playSound sig 5 t).1 := by
    simp [escalation, h0, htest]
  have hD : (dryLoop th cfg.playSound sig 5 t).1 =
      [Event.playSound, Event.check true, Event.sleep 2,
       Event.playSound, Event.check true, Event.sleep 2,
       Event.playSound, Event.check true, Event.sleep 2,
       Event.playSound, Event.check true, Event.sleep 2,
       Event.playSound, Event.check true, Event.sleep 2,
       Event.sleep 10] := by
    simp [dryLoop, hsnd, h0, h2, h4, h6, h8, Nat.add_assoc]
  rw [hE, hD]
  refine ⟨?_, ?_, ?_⟩ <;> decide

/-- Witness for C5 with the dry-run configuration and a stream pinned in
the minimal condition. -/
theorem dry_run_trace_witness :
    actionsOf (escalation thD cfgDry sigMin 0).1 =
      [Event.playSound, Event.sleep 2, Event.playSound, Event.sleep 2, Event.playSound,
       Event.sleep 2, Event.playSound, Event.sleep 2, Event.playSound, Event.sleep 2,
       Event.sleep 10] ∧
    Event.lockScreen ∉ (escalation thD cfgDry sigMin 0).1 ∧
    Event.powerAction ∉ (escalation thD cfgDry sigMin 0).1 :=
  dry_run_trace thD cfgDry sigMin 0 (by decide) (by decide) (by decide) (by decide)
    (by decide) (by decide) (by decide)

theorem noBatTimes_cons_sleep (t n : Nat) (evs : List (Nat × Event)) :
    noBatTimes ((t, Event.sleep n) :: evs) = noBatTimes evs := by
  simp [noBatTimes, isNotifyOf]

theorem noBatTimes_cons_noBat (t ms : Nat) (evs : List (Nat × Event)) :
    noBatTimes ((t, Event.notify NotifyKind.noBattery ms) :: evs) =
      t :: noBatTimes evs := by
  simp [noBatTimes, isNotifyOf]

theorem pluggedCount_cons (p : Nat × Event) (evs : List (Nat × Event)) :
    pluggedCount (p :: evs) =
      (if isNotifyOf NotifyKind.batteryPlugged p.2 then 1 else 0) + pluggedCount evs := by
  simp only [pluggedCount, List.filter_cons]
  split_ifs <;> simp_all <;> omega

theorem noBatteryLoop_times (cfg : Config) (sig : Nat → Sample)
    (hR : 0 < cfg.noBatteryRemainder) :
    ∀ fuel t c, (∀ u, t ≤ u → u ≤ t + fuel → (sig u).batteryPresent = false) →
      noBatTimes (noBatteryLoop cfg sig t c fuel) =
        fireTimes cfg.noBatteryRemainder t c fuel := by
  intro fuel
  induction fuel with
  | zero => intro t c _; rfl
  | succ n ih =>
    intro t c h
    have hbt : (sig t).batteryPresent = false := h t (le_refl t) (by omega)
    have hbt1 : (sig (t + 1)).batteryPresent = false := h (t + 1) (by omega) (by omega)
    have hrec : ∀ c2, noBatTimes (noBatteryLoop cfg sig (t + 1) c2 n) =
        fireTimes cfg.noBatteryRemainder (t + 1) c2 n :=
      fun c2 => ih (t + 1) c2 (fun u h1 h2 => h u (by omega) (by omega))
    by_cases hc : (c + 1 == cfg.noBatteryRemainder * 60) = true
    · simp [noBatteryLoop, fireTimes, hbt, hbt1, hR, hc,
        noBatTimes_cons_sleep, noBatTimes_cons_noBat, hrec]
    · simp [noBatteryLoop, fireTimes, hbt, hbt1, hR, hc,
        noBatTimes_cons_sleep, noBatTimes_cons_noBat, hrec]

/-- Counterexample for C6 as stated: with a 1-minute reminder and the
battery absent throughout 125 seconds, the "no battery" notifications
fire at 0 (entry), 59 and 118 seconds, not at 60 and 120 as claimed:
the counter starts at 1 and is reset to 1, so the effective period is
59 seconds. -/
theorem no_battery_reminder_mismatch :
    noBatTimes (noBatteryHandler cfgR1 sigAbsent 0 125) = [0, 59, 118] ∧
    noBatTimes (noBatteryHandler cfgR1 sigAbsent 0 125) ≠ [0, 60, 120] := by
  constructor <;> decide

/-- Claim C6 (amended): with the reminder set to 1 minute and the
NoBattery condition holding continuously through 125 seconds after
entry, exactly 2 repeat notifications fire in addition to the entry
notification, at 59 s and 118 s (the counter is initialized to 1 and
reset to 1 after each fire, so the period is R*60 - 1 seconds). -/
theorem no_battery_reminder_cadence (cfg : Config) (sig : Nat → Sample)
    (hR : cfg.noBatteryRemainder = 1)
    (h : ∀ u, u ≤ 125 → (sig u).batteryPresent = false) :
    noBatTimes (noBatteryHandler cfg sig 0 125) = [0, 59, 118] := by
  have h0 : 0 < cfg.noBatteryRemainder := by omega
  have hl := noBatteryLoop_times cfg sig h0 125 0 1 (fun u _ h2 => h u (by omega))
  rw [noBatteryHandler, noBatTimes_cons_noBat, hl, hR]
  decide

/-- Witness for the amended C6 at the concrete 1-minute configuration
and the constant battery-absent stream. -/
theorem no_battery_reminder_cadence_witness :
    noBatTimes (noBatteryHandler cfgR1 sigAbsent 0 125) = [0, 59, 118] :=
  no_battery_reminder_cadence cfgR1 sigAbsent rfl (fun _ _ => rfl)

theorem noBatteryLoop_plugged (cfg : Config) (sig : Nat → Sample) :
    ∀ T fuel t c, 1 ≤ T → T ≤ fuel →
      (∀ u, t ≤ u → u < t + T → (sig u).batteryPresent = false) →
      (sig (t + T)).batteryPresent = true →
      pluggedCount (noBatteryLoop cfg sig t c fuel) = 1 ∧
      ∃ pre, noBatteryLoop cfg sig t c fuel =
        pre ++ [(t + T, Event.notify NotifyKind.batteryPlugged (cfg.timeout * 1000)),
                (t + T, Event.sleep cfg.timeout)] := by
  intro T
  induction T with
  | zero => intro fuel t c h1; exact absurd h1 (by omega)
  | succ m ih =>
    intro fuel t c _ h2 hb hbp
    cases fuel with
    | zero => exact absurd h2 (by omega)
    | succ n =>
      have hbt : (sig t).batteryPresent = false := hb t (le_refl t) (by omega)
      by_cases hm : m = 0
      · subst hm
        have hbp1 : (sig (t + 1)).batteryPresent = true := hbp
        by_cases hr : 0 < cfg.noBatteryRemainder
        · constructor
          · simp [noBatteryLoop, hbt, hbp1, hr, pluggedCount, isNotifyOf]
          · exact ⟨[(t, Event.sleep 1)], by simp [noBatteryLoop, hbt, hbp1, hr]⟩
        · constructor
          · simp [noBatteryLoop, hbt, hbp1, hr, pluggedCount, isNotifyOf]
          · exact ⟨[(t, Event.sleep 1)], by simp [noBatteryLoop, hbt, hbp1, hr]⟩
      · have hm1 : 1 ≤ m := by omega
        have hbt1 : (sig (t + 1)).batteryPresent = false := hb (t + 1) (by omega) (by omega)
        have hb2 : ∀ u, t + 1 ≤ u → u < (t + 1) + m → (sig u).batteryPresent = false :=
          fun u hu1 hu2 => hb u (by omega) (by omega)
        have hbp2 : (sig ((t + 1) + m)).batteryPresent = true := by
          have he : (t + 1) + m = t + (m + 1) := by omega
          rw [he]; exact hbp
        have he : (t + 1) + m = t + (m + 1) := by omega
        by_cases hr : 0 < cfg.noBatteryRemainder
        · by_cases hc : (c + 1 == cfg.noBatteryRemainder * 60) = true
          · obtain ⟨hcount, pre, hpre⟩ := ih n (t + 1) 1 hm1 (by omega) hb2 hbp2
            constructor
            · simp [noBatteryLoop, hbt, hbt1, hr, hc, pluggedCount_cons, isNotifyOf, hcount]
            · refine ⟨(t, Event.sleep 1) ::
                (t + 1, Event.notify NotifyKind.noBattery (cfg.timeout * 1000)) :: pre, ?_⟩
              simp [noBatteryLoop, hbt, hbt1, hr, hc, hpre, he]
          · obtain ⟨hcount, pre, hpre⟩ := ih n (t + 1) (c + 1) hm1 (by omega) hb2 hbp2
            constructor
            · simp [noBatteryLoop, hbt, hbt1, hr, hc, pluggedCount_cons, isNotifyOf, hcount]
            · refine ⟨(t, Event.sleep 1) :: pre, ?_⟩
              simp [noBatteryLoop, hbt, hbt1, hr, hc, hpre, he]
        · obtain ⟨hcount, pre, hpre⟩ := ih n (t + 1) c hm1 (by omega) hb2 hbp2
          constructor
          · simp [noBatteryLoop, hbt, hbt1, hr, pluggedCount_cons, isNotifyOf, hcount]
          · refine ⟨(t, Event.sleep 1) :: pre, ?_⟩
            simp [noBatteryLoop, hbt, hbt1, hr, hpre, he]

/-- Claim C7: for every stay in the NoBattery state, with any reminder
setting, when the battery becomes present again (at tick t+T after an
absence of T ticks observed within the loop's fuel) exactly one
"battery plugged" notification fires, and the loop ends with that
notification followed by one notification-timeout cooldown sleep, after
which control returns to top-level classification. -/
theorem battery_plugged_once (cfg : Config) (sig : Nat → Sample) (t T fuel : Nat)
    (h1 : 1 ≤ T) (h2 : T ≤ fuel)
    (hb : ∀ u, t ≤ u → u < t + T → (sig u).batteryPresent = false)
    (hbp : (sig (t + T)).batteryPresent = true) :
    pluggedCount (noBatteryHandler cfg sig t fuel) = 1 ∧
    ∃ pre, noBatteryHandler cfg sig t fuel =
      pre ++ [(t + T, Event.notify NotifyKind.batteryPlugged (cfg.timeout * 1000)),
              (t + T, Event.sleep cfg.timeout)] := by
  obtain ⟨hcount, pre, hpre⟩ := noBatteryLoop_plugged cfg sig T fuel t 1 h1 h2 hb hbp
  constructor
  · simp [noBatteryHandler, pluggedCount_cons, isNotifyOf, hcount]
  · exact ⟨(t, Event.notify NotifyKind.noBattery (cfg.timeout * 1000)) :: pre,
      by simp [noBatteryHandler, hpre]⟩

/-- Witness for C7: battery absent at ticks 0 and 1, present from tick
2; exactly one plugged notification fires. -/
theorem battery_plugged_once_witness :
    pluggedCount (noBatteryHandler cfgD sigPlug 0 5) = 1 :=
  (battery_plugged_once cfgD sigPlug 0 2 5 (by decide) (by decide)
    (by intro u _ hu
        have hu2 : u = 0 ∨ u = 1 := by omega
        rcases hu2 with h | h <;> subst h <;> rfl)
    (by rfl)).1

/-- Claim C9: on a tick whose sample matches none of the seven state
conditions (for example battery present with AC attached while the
discharging flag is set, or battery and AC both absent), the main-loop
dispatch fires no notification and invokes no external command: its
event trace is empty and the loop just re-samples and continues. -/
theorem ac_idle_no_events (th : Thresholds) (cfg : Config) (sig : Nat → Sample)
    (t fuel : Nat) (h : matchedAny th (sig t) = false) :
    mainStep th cfg sig t fuel = [] := by
  rcases hsig : sig t with ⟨bp, ac, dis, fc, cap, tk⟩
  rw [hsig] at h
  simp only [mainStep, batteryTickBody, hsig]
  cases bp <;> cases ac <;> cases dis <;>
    simp_all [matchedAny, noBatteryCond, dischargingCond, lowCond, criticalCond,
      minimalCond, fullCond, chargingCond] <;>
    exfalso <;> omega

/-- Witness for C9: battery present, AC present and discharging flag set
at once matches none of the seven conditions and the dispatch emits
nothing. -/
theorem ac_idle_no_events_witness :
    matchedAny thD (sigIdle 0) = false ∧ mainStep thD cfgD sigIdle 0 3 = [] :=
  ⟨by decide, ac_idle_no_events thD cfgD sigIdle 0 3 (by decide)⟩
